import Mathlib

/-!
Verification of the HoldingsView web client against its design document.

The definitions below are shallow embeddings of the TypeScript source:

* `pollTask` / `pollTaskHooks` embed the task polling loops
  (`src/web/src/services/useMarketData.ts`,
  `src/web/src/hooks/useMarketData.ts`).
  The network is modelled by an oracle `get : Nat → TaskStatusV` giving the
  server response to the i-th status read; the loop's observable effects are
  recorded as a `List Event` (sleeps and HTTP requests) next to its
  resolve/reject outcome (`Except String JsValue`).
* `getTransactionIssues` embeds the zod schema `getTransactionSchema` of the
  add-transaction dialog, `addStockIssues` the schema of `AddStockDialog`.
* `usePortfolioQueryFn` embeds the query function of `usePortfolio`
  (`src/web/src/services/portfolioService.ts`).
* `holdingTransactions` embeds the transaction filter of
  `EditHoldingDialog`.
* `toLine` / `lineSeries` embed the chart data mapping of
  `LightweightStockChart`.
* `enrichRequest` embeds the request construction of
  `useEnrichedMarketData` (hooks variant).

JavaScript numbers are modelled as `Rat`, strings as `String`, and
`undefined`/absent values as `Option`.
-/

/-- A JavaScript runtime value as far as the polled task result is
concerned: the code only distinguishes strings (`typeof r === 'string'`)
from everything else, and otherwise passes the value through opaquely. -/
inductive JsValue where
  | str (s : String)
  | num (q : Rat)
  | jsNull
  | other (tag : String)
deriving DecidableEq

/-- HTTP method of a request issued through `apiClient`. -/
inductive HttpMethod where
  | GET
  | POST
  | PUT
  | DELETE
deriving DecidableEq

/-- A request issued through `apiClient`, identified by method and path. -/
structure HttpRequest where
  method : HttpMethod
  path : String
deriving DecidableEq

/-- An observable effect of the client code: a timer sleep or an HTTP
request. -/
inductive Event where
  | sleep (ms : Nat)
  | http (req : HttpRequest)
deriving DecidableEq

/-- The `TaskStatus` payload returned by `GET /tasks/:id`: a status string
and an untyped result. -/
structure TaskStatusV where
  status : String
  result : JsValue
deriving DecidableEq

/-- The task-status request issued by every poll iteration. -/
def taskStatusRequest (taskId : String) : HttpRequest :=
  ⟨HttpMethod.GET, "/tasks/" ++ taskId⟩

/-- Core of the three `pollTask` loops.  `fuel` is the number of loop
iterations still allowed (`retries - i` in the source), `i` the index of the
next poll.  Each iteration awaits a sleep of `interval` ms, issues the GET,
then returns on `SUCCESS`, throws `failMsg result` on `FAILURE`, and
otherwise continues; an exhausted loop throws `timeoutMsg`. -/
def pollCore (failMsg : JsValue → String) (timeoutMsg : String)
    (taskId : String) (get : Nat → TaskStatusV) (interval : Nat) :
    Nat → Nat → List Event × Except String JsValue
  | 0, _ => ([], Except.error timeoutMsg)
  | fuel + 1, i =>
    let ts := get i
    let evs : List Event := [Event.sleep interval, Event.http (taskStatusRequest taskId)]
    if ts.status = "SUCCESS" then (evs, Except.ok ts.result)
    else if ts.status = "FAILURE" then (evs, Except.error (failMsg ts.result))
    else
      let r := pollCore failMsg timeoutMsg taskId get interval fuel (i + 1)
      (evs ++ r.1, r.2)

/-- `typeof taskStatus.result === 'string' ? taskStatus.result : 'Task failed to execute.'`
from `services/useMarketData.ts`. -/
def servicesFailureMessage (result : JsValue) : String :=
  match result with
  | JsValue.str s => s
  | _ => "Task failed to execute."

/-- Default `retries` argument of every `pollTask` variant. -/
def pollTaskDefaultRetries : Nat := 20

/-- Default `interval` argument (ms) of every `pollTask` variant. -/
def pollTaskDefaultInterval : Nat := 3000

/-- `pollTask` from `src/web/src/services/useMarketData.ts`. -/
def pollTask (taskId : String) (get : Nat → TaskStatusV)
    (retries interval : Nat) : List Event × Except String JsValue :=
  pollCore servicesFailureMessage "Task timed out." taskId get interval retries 0

/-- A status string is terminal when the loop stops on it. -/
def isTerminalStatus (s : String) : Prop :=
  s = "SUCCESS" ∨ s = "FAILURE"

instance (s : String) : Decidable (isTerminalStatus s) := by
  unfold isTerminalStatus; infer_instance

lemma pollCore_zero (failMsg : JsValue → String) (timeoutMsg taskId : String)
    (get : Nat → TaskStatusV) (interval i : Nat) :
    pollCore failMsg timeoutMsg taskId get interval 0 i =
      ([], Except.error timeoutMsg) := rfl

lemma pollCore_succ (failMsg : JsValue → String) (timeoutMsg taskId : String)
    (get : Nat → TaskStatusV) (interval fuel i : Nat) :
    pollCore failMsg timeoutMsg taskId get interval (fuel + 1) i =
      (let ts := get i
       let evs : List Event := [Event.sleep interval, Event.http (taskStatusRequest taskId)]
       if ts.status = "SUCCESS" then (evs, Except.ok ts.result)
       else if ts.status = "FAILURE" then (evs, Except.error (failMsg ts.result))
       else
         let r := pollCore failMsg timeoutMsg taskId get interval fuel (i + 1)
         (evs ++ r.1, r.2)) := rfl

/-- If no poll in the budget observes a terminal status, the loop rejects
with the timeout message. -/
lemma pollCore_result_timeout (failMsg : JsValue → String)
    (timeoutMsg taskId : String) (get : Nat → TaskStatusV) (interval : Nat) :
    ∀ fuel i, (∀ d, d < fuel → ¬ isTerminalStatus (get (i + d)).status) →
      (pollCore failMsg timeoutMsg taskId get interval fuel i).2 =
        Except.error timeoutMsg := by
  intro fuel
  induction fuel with
  | zero => intro i _; rfl
  | succ n ih =>
    intro i h
    have h0 : ¬ isTerminalStatus (get i).status := by
      have := h 0 (Nat.succ_pos n)
      simpa using this
    have hs : ¬ (get i).status = "SUCCESS" := fun hc => h0 (Or.inl hc)
    have hf : ¬ (get i).status = "FAILURE" := fun hc => h0 (Or.inr hc)
    rw [pollCore_succ]
    simp only [hs, hf, if_false]
    exact ih (i + 1) (fun d hd => by
      have := h (d + 1) (Nat.succ_lt_succ hd)
      simpa [Nat.add_assoc, Nat.add_comm 1 d] using this)

/-- If the first terminal status is observed at poll `k` within the budget,
the loop resolves with the result on `SUCCESS` and rejects with
`failMsg result` on `FAILURE`. -/
lemma pollCore_result_first_terminal (failMsg : JsValue → String)
    (timeoutMsg taskId : String) (get : Nat → TaskStatusV) (interval : Nat) :
    ∀ k fuel i, k < fuel →
      (∀ d, d < k → ¬ isTerminalStatus (get (i + d)).status) →
      isTerminalStatus (get (i + k)).status →
      (pollCore failMsg timeoutMsg taskId get interval fuel i).2 =
        (if (get (i + k)).status = "SUCCESS" then Except.ok (get (i + k)).result
         else Except.error (failMsg (get (i + k)).result)) := by
  intro k
  induction k with
  | zero =>
    intro fuel i hk _ hterm
    match fuel, hk with
    | n + 1, _ =>
      rw [pollCore_succ]
      rcases hterm with hs | hf
      · simp only [Nat.add_zero] at hs ⊢
        simp [hs]
      · simp only [Nat.add_zero] at hf ⊢
        have hns : ¬ (get i).status = "SUCCESS" := by
          intro hc; rw [hc] at hf; exact absurd hf (by decide)
        simp [hf, hns]
  | succ k ih =>
    intro fuel i hk hpre hterm
    match fuel, hk with
    | n + 1, hk =>
      have h0 : ¬ isTerminalStatus (get i).status := by
        have := hpre 0 (Nat.succ_pos k)
        simpa using this
      have hs : ¬ (get i).status = "SUCCESS" := fun hc => h0 (Or.inl hc)
      have hf : ¬ (get i).status = "FAILURE" := fun hc => h0 (Or.inr hc)
      rw [pollCore_succ]
      simp only [hs, hf, if_false]
      have hshift : i + 1 + k = i + (k + 1) := by omega
      have := ih n (i + 1) (Nat.lt_of_succ_lt_succ hk)
        (fun d hd => by
          have := hpre (d + 1) (Nat.succ_lt_succ hd)
          simpa [Nat.add_assoc, Nat.add_comm 1 d] using this)
        (by rw [hshift]; exact hterm)
      rw [hshift] at this
      exact this

/-- The trace of the loop is a concatenation of at most `fuel` identical
blocks, each a sleep of `interval` ms followed by the status GET. -/
lemma pollCore_trace_shape (failMsg : JsValue → String)
    (timeoutMsg taskId : String) (get : Nat → TaskStatusV) (interval : Nat) :
    ∀ fuel i, ∃ n, n ≤ fuel ∧
      (pollCore failMsg timeoutMsg taskId get interval fuel i).1 =
        (List.replicate n
          [Event.sleep interval, Event.http (taskStatusRequest taskId)]).flatten := by
  intro fuel
  induction fuel with
  | zero => intro i; exact ⟨0, Nat.le_refl 0, rfl⟩
  | succ n ih =>
    intro i
    rw [pollCore_succ]
    by_cases hs : (get i).status = "SUCCESS"
    · exact ⟨1, Nat.succ_le_succ (Nat.zero_le n), by simp [hs]⟩
    · by_cases hf : (get i).status = "FAILURE"
      · exact ⟨1, Nat.succ_le_succ (Nat.zero_le n), by simp [hs, hf]⟩
      · obtain ⟨m, hm, htr⟩ := ih (i + 1)
        refine ⟨m + 1, Nat.succ_le_succ hm, ?_⟩
        simp [hs, hf, htr, List.replicate_succ]

/-- Claim C1: for every task id, `pollTask` polls the task status endpoint
on a fixed interval (defaults: 20 polls at 3000 ms); the first poll that
observes `SUCCESS` resolves with the task's result payload; the first poll
that observes `FAILURE` rejects with an error carrying the result's string
(or a fixed fallback for non-string results); and if no terminal status is
observed within the retry budget the loop rejects with the distinct
"Task timed out." error. -/
theorem pollTask_poll_contract (taskId : String) (get : Nat → TaskStatusV)
    (retries interval k : Nat) (hk : k < retries)
    (hpre : ∀ d, d < k → ¬ isTerminalStatus (get d).status) :
    pollTaskDefaultRetries = 20 ∧ pollTaskDefaultInterval = 3000 ∧
    ((get k).status = "SUCCESS" →
      (pollTask taskId get retries interval).2 = Except.ok (get k).result) ∧
    ((get k).status = "FAILURE" → ∀ s, (get k).result = JsValue.str s →
      (pollTask taskId get retries interval).2 = Except.error s) ∧
    (∀ get2 : Nat → TaskStatusV,
      (∀ j, j < retries → ¬ isTerminalStatus (get2 j).status) →
      (pollTask taskId get2 retries interval).2 = Except.error "Task timed out.") := by
  refine ⟨rfl, rfl, ?_, ?_, ?_⟩
  · intro hs
    have := pollCore_result_first_terminal servicesFailureMessage
      "Task timed out." taskId get interval k retries 0 hk
      (fun d hd => by simpa using hpre d hd)
      (by simpa using Or.inl hs)
    simp only [Nat.zero_add] at this
    rw [pollTask, this]
    simp [hs]
  · intro hf s hres
    have := pollCore_result_first_terminal servicesFailureMessage
      "Task timed out." taskId get interval k retries 0 hk
      (fun d hd => by simpa using hpre d hd)
      (by simpa using Or.inr hf)
    simp only [Nat.zero_add] at this
    rw [pollTask, this]
    have hns : ¬ (get k).status = "SUCCESS" := by
      intro hc; rw [hf] at hc; exact absurd hc (by decide)
    simp [hns, servicesFailureMessage, hres]
  · intro get2 hall
    exact pollCore_result_timeout servicesFailureMessage "Task timed out."
      taskId get2 interval retries 0 (fun d hd => by simpa using hall d hd)

/-- Claim C1 witness: a task pending once and succeeding on the second poll
resolves with its payload; a task failing with a string result rejects with
that string; a task never terminal within the budget times out. -/
theorem pollTask_poll_contract_witness :
    (pollTask "t1"
      (fun n => if n = 0 then ⟨"PENDING", JsValue.jsNull⟩
                else ⟨"SUCCESS", JsValue.str "payload"⟩) 3 0).2 =
      Except.ok (JsValue.str "payload") ∧
    (pollTask "t1"
      (fun n => if n = 0 then ⟨"PENDING", JsValue.jsNull⟩
                else ⟨"FAILURE", JsValue.str "boom"⟩) 3 0).2 =
      Except.error "boom" ∧
    (pollTask "t1" (fun _ => ⟨"PENDING", JsValue.jsNull⟩) 3 0).2 =
      Except.error "Task timed out." := by
  have h1 := pollTask_poll_contract "t1"
    (fun n => if n = 0 then ⟨"PENDING", JsValue.jsNull⟩
              else ⟨"SUCCESS", JsValue.str "payload"⟩) 3 0 1
    (by decide) (by decide)
  have h2 := pollTask_poll_contract "t1"
    (fun n => if n = 0 then ⟨"PENDING", JsValue.jsNull⟩
              else ⟨"FAILURE", JsValue.str "boom"⟩) 3 0 1
    (by decide) (by decide)
  refine ⟨h1.2.2.1 (by decide), h2.2.2.2.1 (by decide) "boom" (by decide), ?_⟩
  exact h1.2.2.2.2 (fun _ => ⟨"PENDING", JsValue.jsNull⟩) (by decide)

/-- The failure-message computation of `pollTask` in
`src/web/src/hooks/useMarketData.ts`.  `jsonDetail` abstracts
`JSON.parse` followed by the `errorObj && errorObj.detail` truthiness
check: `none` models a parse exception, `some none` a parsed value whose
check is falsy, `some (some d)` a parsed object with truthy `detail` `d`.
The try block either falls through, or throws (a parse error or the
`new Error(errorObj.detail)`); any throw is swallowed by the enclosing
catch, after which the original `errorMessage` is thrown. -/
def hooksFailureMessage (jsonDetail : String → Option (Option String))
    (result : JsValue) : String :=
  let errorMessage :=
    match result with
    | JsValue.str s => s
    | _ => "Task failed to execute."
  let tryOutcome : Except String Unit :=
    match jsonDetail errorMessage with
    | none => Except.error "SyntaxError"
    | some none => Except.ok ()
    | some (some d) => Except.error d
  match tryOutcome with
  | Except.error _ => errorMessage
  | Except.ok _ => errorMessage

/-- `pollTask` from `src/web/src/hooks/useMarketData.ts`. -/
def pollTaskHooks (jsonDetail : String → Option (Option String))
    (taskId : String) (get : Nat → TaskStatusV)
    (retries interval : Nat) : List Event × Except String JsValue :=
  pollCore (hooksFailureMessage jsonDetail) "Task timed out waiting for market data."
    taskId get interval retries 0

lemma hooksTryThrow (jsonDetail : String → Option (Option String)) (em : String) :
    (match (match jsonDetail em with
      | none => Except.error "SyntaxError"
      | some none => Except.ok ()
      | some (some d) => Except.error d : Except String Unit) with
      | Except.error _ => em
      | Except.ok _ => em) = em := by
  cases h : jsonDetail em with
  | none => rfl
  | some o => cases o <;> rfl

lemma hooksFailureMessage_eq (jsonDetail : String → Option (Option String))
    (result : JsValue) :
    hooksFailureMessage jsonDetail result = servicesFailureMessage result := by
  cases result <;> exact hooksTryThrow jsonDetail _

/-- Claim C8: whenever a poll of the hooks `pollTask` observes `FAILURE`
with a string result, the rejection message equals that original string
(and "Task failed to execute." for non-string results), even when the
string is JSON with a `detail` field: the re-throw of the parsed `detail`
is never the final outcome, because the `Error` thrown inside the try
block is caught by its own catch.  The result is independent of the
`jsonDetail` oracle. -/
theorem pollTaskHooks_failure_preserves_message
    (jsonDetail : String → Option (Option String)) (taskId : String)
    (get : Nat → TaskStatusV) (retries interval k : Nat)
    (hk : k < retries)
    (hpre : ∀ d, d < k → ¬ isTerminalStatus (get d).status)
    (hfail : (get k).status = "FAILURE") :
    (∀ s, (get k).result = JsValue.str s →
      (pollTaskHooks jsonDetail taskId get retries interval).2 = Except.error s) ∧
    ((∀ s, (get k).result ≠ JsValue.str s) →
      (pollTaskHooks jsonDetail taskId get retries interval).2 =
        Except.error "Task failed to execute.") ∧
    (∀ s d, jsonDetail s = some (some d) →
      hooksFailureMessage jsonDetail (JsValue.str s) = s) := by
  have hns : ¬ (get k).status = "SUCCESS" := by
    intro hc; rw [hfail] at hc; exact absurd hc (by decide)
  have hmain := pollCore_result_first_terminal (hooksFailureMessage jsonDetail)
    "Task timed out waiting for market data." taskId get interval k retries 0 hk
    (fun d hd => by simpa using hpre d hd)
    (by simpa using Or.inr hfail)
  simp only [Nat.zero_add] at hmain
  refine ⟨?_, ?_, ?_⟩
  · intro s hres
    rw [pollTaskHooks, hmain]
    simp [hns, hooksFailureMessage_eq, servicesFailureMessage, hres]
  · intro hnotstr
    rw [pollTaskHooks, hmain]
    simp only [hns, if_false, hooksFailureMessage_eq]
    cases hres : (get k).result with
    | str s => exact absurd hres (hnotstr s)
    | num q => rfl
    | jsNull => rfl
    | other t => rfl
  · intro s d _
    rw [hooksFailureMessage_eq]
    rfl

/-- Claim C8 witness: a task failing with the string result
"failure detail json" rejects with exactly that string even though the
`jsonDetail` oracle reports a parsed `detail` field "inner detail"; a
non-string failure result rejects with "Task failed to execute.". -/
theorem pollTaskHooks_failure_preserves_message_witness :
    (pollTaskHooks (fun _ => some (some "inner detail")) "t2"
      (fun _ => ⟨"FAILURE", JsValue.str "failure detail json"⟩) 20 3000).2 =
      Except.error "failure detail json" ∧
    (pollTaskHooks (fun _ => some (some "inner detail")) "t2"
      (fun _ => ⟨"FAILURE", JsValue.jsNull⟩) 20 3000).2 =
      Except.error "Task failed to execute." := by
  have h1 := pollTaskHooks_failure_preserves_message
    (fun _ => some (some "inner detail")) "t2"
    (fun _ => ⟨"FAILURE", JsValue.str "failure detail json"⟩) 20 3000 0
    (by decide) (by decide) (by decide)
  have h2 := pollTaskHooks_failure_preserves_message
    (fun _ => some (some "inner detail")) "t2"
    (fun _ => ⟨"FAILURE", JsValue.jsNull⟩) 20 3000 0
    (by decide) (by decide) (by decide)
  exact ⟨h1.1 "failure detail json" rfl, h2.2.1 (by intro s h; cases h)⟩

/-- True exactly on HTTP events. -/
def isHttpEvent (e : Event) : Bool :=
  match e with
  | Event.http _ => true
  | _ => false

lemma countP_flatten_replicate (l : List Event) (p : Event → Bool) :
    ∀ n, List.countP p (List.replicate n l).flatten = n * List.countP p l := by
  intro n
  induction n with
  | zero => simp
  | succ m ih =>
    rw [List.replicate_succ, List.flatten_cons, List.countP_append, ih]
    ring

/-- Claim C6: polling a task is a pure read.  Every event the poll loop
emits is a sleep or the status GET; in particular every HTTP request in
the trace — hence in any prefix of it observed before the caller abandons
the loop — is a GET of `/tasks/:id`, and no state-mutating request (and no
cancellation of the dispatched job) is ever sent. -/
theorem pollTask_pure_read (taskId : String) (get : Nat → TaskStatusV)
    (retries interval : Nat) :
    (∀ e, e ∈ (pollTask taskId get retries interval).1 →
      e = Event.sleep interval ∨ e = Event.http (taskStatusRequest taskId)) ∧
    (∀ req, Event.http req ∈ (pollTask taskId get retries interval).1 →
      req.method = HttpMethod.GET ∧ req.path = "/tasks/" ++ taskId) := by
  obtain ⟨n, _, htr⟩ := pollCore_trace_shape servicesFailureMessage
    "Task timed out." taskId get interval retries 0
  have hmem : ∀ e, e ∈ (pollTask taskId get retries interval).1 →
      e = Event.sleep interval ∨ e = Event.http (taskStatusRequest taskId) := by
    intro e he
    rw [pollTask, htr] at he
    rw [List.mem_flatten] at he
    obtain ⟨l, hl, hel⟩ := he
    have := List.eq_of_mem_replicate hl
    subst this
    simpa using hel
  refine ⟨hmem, ?_⟩
  intro req hreq
  rcases hmem (Event.http req) hreq with h | h
  · cases h
  · cases h
    exact ⟨rfl, rfl⟩

/-- Claim C6 witness: with a two-poll budget and a never-terminal task, the
emitted trace events are each either the sleep or the status GET, and the
one request inspected has method GET and the task-status path. -/
theorem pollTask_pure_read_witness :
    (Event.http (taskStatusRequest "t3") ∈
        (pollTask "t3" (fun _ => ⟨"PENDING", JsValue.jsNull⟩) 2 3000).1 ∧
      (taskStatusRequest "t3").method = HttpMethod.GET ∧
      (taskStatusRequest "t3").path = "/tasks/" ++ "t3") := by
  have h := pollTask_pure_read "t3" (fun _ => ⟨"PENDING", JsValue.jsNull⟩) 2 3000
  have hmem : Event.http (taskStatusRequest "t3") ∈
      (pollTask "t3" (fun _ => ⟨"PENDING", JsValue.jsNull⟩) 2 3000).1 := by decide
  exact ⟨hmem, h.2 (taskStatusRequest "t3") hmem⟩

/-- Claim C9: the poll trace is a concatenation of `n ≤ retries` blocks,
each one a full sleep of `interval` ms followed by the status GET — so the
sleep precedes the GET in every iteration, the first status read happens
no earlier than one interval after the call, and at most `retries` status
reads are ever issued (the HTTP-event count of the trace is `n ≤ retries`).
Moreover any GET in the trace is preceded by a sleep. -/
theorem pollTask_sleep_first_bounded_reads (taskId : String)
    (get : Nat → TaskStatusV) (retries interval : Nat) :
    ∃ n, n ≤ retries ∧
      (pollTask taskId get retries interval).1 =
        (List.replicate n
          [Event.sleep interval, Event.http (taskStatusRequest taskId)]).flatten ∧
      List.countP isHttpEvent (pollTask taskId get retries interval).1 = n ∧
      (∀ pre post, (pollTask taskId get retries interval).1 =
          pre ++ Event.http (taskStatusRequest taskId) :: post →
        Event.sleep interval ∈ pre) := by
  obtain ⟨n, hn, htr⟩ := pollCore_trace_shape servicesFailureMessage
    "Task timed out." taskId get interval retries 0
  have htr' : (pollTask taskId get retries interval).1 =
      (List.replicate n
        [Event.sleep interval, Event.http (taskStatusRequest taskId)]).flatten := htr
  refine ⟨n, hn, htr', ?_, ?_⟩
  · rw [htr', countP_flatten_replicate]
    simp [isHttpEvent]
  · intro pre post heq
    rw [htr'] at heq
    match n, heq with
    | 0, heq => simp at heq
    | n + 1, heq =>
      rw [List.replicate_succ, List.flatten_cons] at heq
      match pre, heq with
      | [], heq => simp at heq
      | a :: pre', heq =>
        have : a = Event.sleep interval := by
          have := congrArg (fun l => l.head?) heq
          simpa using this.symm
        rw [this]
        exact List.mem_cons_self _ _

/-- Claim C9 witness: with a two-poll budget and a never-terminal task the
trace is exactly two sleep-then-GET blocks, its HTTP-event count is 2 ≤ 2,
and the sleep precedes the first GET. -/
theorem pollTask_sleep_first_bounded_reads_witness :
    (pollTask "t4" (fun _ => ⟨"PENDING", JsValue.jsNull⟩) 2 3000).1 =
      [Event.sleep 3000, Event.http (taskStatusRequest "t4"),
       Event.sleep 3000, Event.http (taskStatusRequest "t4")] ∧
    List.countP isHttpEvent
      (pollTask "t4" (fun _ => ⟨"PENDING", JsValue.jsNull⟩) 2 3000).1 = 2 ∧
    Event.sleep 3000 ∈ [Event.sleep 3000] := by
  obtain ⟨n, hn, htr, hcount, hpre⟩ := pollTask_sleep_first_bounded_reads "t4"
    (fun _ => ⟨"PENDING", JsValue.jsNull⟩) 2 3000
  refine ⟨by decide, by decide, ?_⟩
  exact hpre [Event.sleep 3000]
    [Event.sleep 3000, Event.http (taskStatusRequest "t4")] (by decide)

/-- A zod validation issue: the path of the offending field and a message.
A form submission is blocked exactly when the issue list is non-empty. -/
structure ZodIssue where
  path : List String
  message : String
deriving DecidableEq

/-- `EnrichedHolding` from `src/web/src/types/api.ts`; `number | null` and
optional fields are `Option Rat` / `Option String`. -/
structure EnrichedHolding where
  symbol : String
  quantity : Rat
  average_cost_basis : Rat
  total_cost_basis : Rat
  current_price : Option Rat
  market_value : Option Rat
  unrealized_gain_loss : Option Rat
  unrealized_gain_loss_percent : Option Rat
  todays_change : Option Rat
  todays_change_percent : Option Rat
  is_option : Bool
  option_type : Option String
  strike_price : Option Rat
  expiration_date : Option String
  underlying_symbol : Option String
deriving DecidableEq

/-- The parsed form data of `getTransactionSchema` in the add-transaction
dialog: dates are modelled as opaque `Nat` timestamps. -/
structure TransactionFormData where
  symbol : String
  transaction_type : String
  quantity : Rat
  price : Rat
  transaction_date : Nat
  is_option : Bool
  option_type : Option String
  strike_price : Option Rat
  expiration_date : Option Nat
  underlying_symbol : Option String
deriving DecidableEq

/-- Field-level issues of the `z.object` part of `getTransactionSchema`
(each `.min`/`.max`/`.enum` check in schema order; a `.optional()` numeric
or string check only fires when the field is present; the decimal minima
0.000001 and 0.01 are written as `mkRat` fractions). -/
def getTransactionBaseIssues (data : TransactionFormData) : List ZodIssue :=
  (if data.symbol.length < 1 then [⟨["symbol"], "Symbol is required."⟩] else []) ++
  (if 21 < data.symbol.length then
    [⟨["symbol"], "String must contain at most 21 character(s)"⟩] else []) ++
  (if data.transaction_type = "BUY" ∨ data.transaction_type = "SELL" then []
   else [⟨["transaction_type"], "Invalid enum value"⟩]) ++
  (if data.quantity < mkRat 1 1000000 then
    [⟨["quantity"], "Quantity must be greater than 0."⟩] else []) ++
  (if data.price < mkRat 1 100 then
    [⟨["price"], "Price must be greater than 0."⟩] else []) ++
  (match data.option_type with
   | some t => if t = "CALL" ∨ t = "PUT" then []
               else [⟨["option_type"], "Invalid enum value"⟩]
   | none => []) ++
  (match data.strike_price with
   | some s => if s < mkRat 1 100 then
       [⟨["strike_price"], "Strike price must be greater than 0."⟩] else []
   | none => []) ++
  (match data.underlying_symbol with
   | some u => if 21 < u.length then
       [⟨["underlying_symbol"], "String must contain at most 21 character(s)"⟩] else []
   | none => [])

/-- `holdings.find(h => h.symbol === data.symbol)` followed by
`holding?.quantity || 0` (the `|| 0` fallback only matters when no holding
is found, since `0 || 0` is `0`). -/
def heldQuantity (holdings : List EnrichedHolding) (symbol : String) : Rat :=
  match holdings.find? (fun h => h.symbol == symbol) with
  | some h => h.quantity
  | none => 0

/-- The `.superRefine` block of `getTransactionSchema`.  The oversell check
runs only for a SELL with a non-empty `holdings` array on a non-option
form; `!x` on an optional string/number is JavaScript falsiness. -/
def getTransactionRefineIssues (holdings : List EnrichedHolding)
    (data : TransactionFormData) : List ZodIssue :=
  (if data.transaction_type = "SELL" ∧ holdings ≠ [] ∧ data.is_option = false then
    (if heldQuantity holdings data.symbol < data.quantity then
      [⟨["quantity"], "Cannot sell more than you own. You have " ++
        toString (heldQuantity holdings data.symbol) ++ " shares."⟩]
     else [])
   else []) ++
  (if data.is_option = true then
    (if data.option_type = none ∨ data.option_type = some "" then
      [⟨["option_type"], "Option type is required."⟩] else []) ++
    (if data.strike_price = none ∨ data.strike_price = some 0 then
      [⟨["strike_price"], "Strike price is required."⟩] else []) ++
    (if data.expiration_date = none then
      [⟨["expiration_date"], "Expiration date is required."⟩] else []) ++
    (if data.underlying_symbol = none ∨ data.underlying_symbol = some "" then
      [⟨["underlying_symbol"], "Underlying symbol is required."⟩] else [])
   else [])

/-- Full validation of `getTransactionSchema`: zod runs the `.superRefine`
effects only when the base object parse succeeds. -/
def getTransactionIssues (holdings : List EnrichedHolding)
    (data : TransactionFormData) : List ZodIssue :=
  let base := getTransactionBaseIssues data
  if base = [] then getTransactionRefineIssues holdings data else base

/-- The form data of `transactionSchema` in `AddStockDialog.tsx`. -/
structure StockFormData where
  symbol : String
  transaction_type : String
  quantity : Rat
  price : Rat
  transaction_date : Nat
deriving DecidableEq

/-- `transactionSchema` from `AddStockDialog.tsx`. -/
def addStockIssues (data : StockFormData) : List ZodIssue :=
  (if data.symbol.length < 1 then [⟨["symbol"], "Symbol is required."⟩] else []) ++
  (if 10 < data.symbol.length then
    [⟨["symbol"], "String must contain at most 10 character(s)"⟩] else []) ++
  (if data.transaction_type = "BUY" ∨ data.transaction_type = "SELL" then []
   else [⟨["transaction_type"], "Invalid enum value"⟩]) ++
  (if data.quantity < mkRat 1 10000 then
    [⟨["quantity"], "Quantity must be greater than 0."⟩] else []) ++
  (if data.price < mkRat 1 100 then
    [⟨["price"], "Price must be greater than 0."⟩] else [])

/-- A well-formed equity SELL form against an empty holdings list: the
oversell check of `getTransactionSchema` is skipped entirely when
`holdings.length === 0`. -/
def oversellEmptyHoldingsForm : TransactionFormData :=
  ⟨"AAPL", "SELL", 15, 100, 0, false, none, none, none, none⟩

/-- Claim C2 counterexample: with an empty holdings list, a SELL of 15
shares of AAPL — exceeding the held quantity 0 — produces no validation
issue at all, so the claim as stated (every oversized equity SELL is
rejected with a quantity issue) is false. -/
theorem getTransactionSchema_empty_holdings_oversell_cex :
    oversellEmptyHoldingsForm.transaction_type = "SELL" ∧
    oversellEmptyHoldingsForm.is_option = false ∧
    heldQuantity [] oversellEmptyHoldingsForm.symbol <
      oversellEmptyHoldingsForm.quantity ∧
    getTransactionIssues [] oversellEmptyHoldingsForm = [] := by
  refine ⟨rfl, rfl, by decide, ?_⟩
  decide

/-- Claim C2 (amended): for a SELL of an equity entered through the
add-transaction form whose other fields pass the base schema, *provided
the holdings list is non-empty*, a sell quantity exceeding the quantity
currently held for that symbol (0 when the symbol is not held) is rejected
with an issue on the quantity field before submission. -/
theorem getTransactionSchema_rejects_oversell
    (holdings : List EnrichedHolding) (data : TransactionFormData)
    (hbase : getTransactionBaseIssues data = [])
    (hsell : data.transaction_type = "SELL")
    (hne : holdings ≠ [])
    (hstock : data.is_option = false)
    (hover : heldQuantity holdings data.symbol < data.quantity) :
    ∃ issue, issue ∈ getTransactionIssues holdings data ∧
      issue.path = ["quantity"] := by
  refine ⟨⟨["quantity"], "Cannot sell more than you own. You have " ++
    toString (heldQuantity holdings data.symbol) ++ " shares."⟩, ?_, rfl⟩
  have hcond : data.transaction_type = "SELL" ∧ holdings ≠ [] ∧
      data.is_option = false := ⟨hsell, hne, hstock⟩
  unfold getTransactionIssues
  rw [hbase]
  simp only [if_pos rfl]
  unfold getTransactionRefineIssues
  rw [if_pos hcond, if_pos hover]
  simp [hstock]

/-- Claim C2 witness: selling 15 AAPL against a holding of 10 yields an
issue on the quantity field. -/
theorem getTransactionSchema_rejects_oversell_witness :
    ∃ issue, issue ∈ getTransactionIssues
      [⟨"AAPL", 10, 150, 1500, none, none, none, none, none, none,
        false, none, none, none, none⟩]
      ⟨"AAPL", "SELL", 15, 150, 0, false, none, none, none, none⟩ ∧
      issue.path = ["quantity"] := by
  refine getTransactionSchema_rejects_oversell
    [⟨"AAPL", 10, 150, 1500, none, none, none, none, none, none,
      false, none, none, none, none⟩]
    ⟨"AAPL", "SELL", 15, 150, 0, false, none, none, none, none⟩
    (by decide) rfl (by decide) rfl ?_
  decide

/-- Claim C5: both transaction-creation schemas only accept positive
quantities and prices: an issue-free parse implies quantity > 0 and
price > 0, and a zero or negative quantity (resp. price) always produces
an issue on that field. -/
theorem transaction_schemas_require_positive_quantity_price
    (stock : StockFormData) (data : TransactionFormData)
    (holdings : List EnrichedHolding) :
    (addStockIssues stock = [] → 0 < stock.quantity ∧ 0 < stock.price) ∧
    (stock.quantity ≤ 0 → ∃ i, i ∈ addStockIssues stock ∧ i.path = ["quantity"]) ∧
    (stock.price ≤ 0 → ∃ i, i ∈ addStockIssues stock ∧ i.path = ["price"]) ∧
    (getTransactionIssues holdings data = [] → 0 < data.quantity ∧ 0 < data.price) ∧
    (data.quantity ≤ 0 → ∃ i, i ∈ getTransactionBaseIssues data ∧ i.path = ["quantity"]) ∧
    (data.price ≤ 0 → ∃ i, i ∈ getTransactionBaseIssues data ∧ i.path = ["price"]) := by
  have hq1 : (0 : Rat) < mkRat 1 1000000 := by decide
  have hq2 : (0 : Rat) < mkRat 1 10000 := by decide
  have hp1 : (0 : Rat) < mkRat 1 100 := by decide
  have stockQ : stock.quantity < mkRat 1 10000 →
      ∃ i, i ∈ addStockIssues stock ∧ i.path = ["quantity"] := by
    intro hq
    exact ⟨⟨["quantity"], "Quantity must be greater than 0."⟩,
      by simp [addStockIssues, hq], rfl⟩
  have stockP : stock.price < mkRat 1 100 →
      ∃ i, i ∈ addStockIssues stock ∧ i.path = ["price"] := by
    intro hp
    exact ⟨⟨["price"], "Price must be greater than 0."⟩,
      by simp [addStockIssues, hp], rfl⟩
  have dataQ : data.quantity < mkRat 1 1000000 →
      ∃ i, i ∈ getTransactionBaseIssues data ∧ i.path = ["quantity"] := by
    intro hq
    exact ⟨⟨["quantity"], "Quantity must be greater than 0."⟩,
      by simp [getTransactionBaseIssues, hq], rfl⟩
  have dataP : data.price < mkRat 1 100 →
      ∃ i, i ∈ getTransactionBaseIssues data ∧ i.path = ["price"] := by
    intro hp
    exact ⟨⟨["price"], "Price must be greater than 0."⟩,
      by simp [getTransactionBaseIssues, hp], rfl⟩
  refine ⟨?_, ?_, ?_, ?_, ?_, ?_⟩
  · intro h
    constructor
    · by_contra h0
      push_neg at h0
      obtain ⟨i, hi, _⟩ := stockQ (lt_of_le_of_lt h0 hq2)
      rw [h] at hi
      exact absurd hi (List.not_mem_nil i)
    · by_contra h0
      push_neg at h0
      obtain ⟨i, hi, _⟩ := stockP (lt_of_le_of_lt h0 hp1)
      rw [h] at hi
      exact absurd hi (List.not_mem_nil i)
  · intro h; exact stockQ (lt_of_le_of_lt h hq2)
  · intro h; exact stockP (lt_of_le_of_lt h hp1)
  · intro h
    have hbase : getTransactionBaseIssues data = [] := by
      by_contra hb
      rw [getTransactionIssues] at h
      simp only [if_neg hb] at h
      exact hb h
    constructor
    · by_contra h0
      push_neg at h0
      obtain ⟨i, hi, _⟩ := dataQ (lt_of_le_of_lt h0 hq1)
      rw [hbase] at hi
      exact absurd hi (List.not_mem_nil i)
    · by_contra h0
      push_neg at h0
      obtain ⟨i, hi, _⟩ := dataP (lt_of_le_of_lt h0 hp1)
      rw [hbase] at hi
      exact absurd hi (List.not_mem_nil i)
  · intro h; exact dataQ (lt_of_le_of_lt h hq1)
  · intro h; exact dataP (lt_of_le_of_lt h hp1)

/-- Claim C5 witness: a valid BUY of 2 shares at 12 parses issue-free and
indeed has positive quantity and price; a BUY with quantity 0 gets a
quantity issue and one with price -1 gets a price issue. -/
theorem transaction_schemas_require_positive_quantity_price_witness :
    ((0 : Rat) < 2 ∧ (0 : Rat) < 12) ∧
    (∃ i, i ∈ addStockIssues ⟨"AAPL", "BUY", 0, 12, 0⟩ ∧
      i.path = ["quantity"]) ∧
    (∃ i, i ∈ getTransactionBaseIssues
      ⟨"AAPL", "BUY", 2, -1, 0, false, none, none, none, none⟩ ∧
      i.path = ["price"]) := by
  have h1 := transaction_schemas_require_positive_quantity_price
    ⟨"AAPL", "BUY", 2, 12, 0⟩
    ⟨"AAPL", "BUY", 2, -1, 0, false, none, none, none, none⟩ []
  have h2 := transaction_schemas_require_positive_quantity_price
    ⟨"AAPL", "BUY", 0, 12, 0⟩
    ⟨"AAPL", "BUY", 2, -1, 0, false, none, none, none, none⟩ []
  refine ⟨h1.1 (by decide), h2.2.1 (by decide), h1.2.2.2.2.2 (by decide)⟩

/-- `PortfolioRead` from `src/web/src/types/api.ts`. -/
structure PortfolioRead where
  id : Nat
  name : String
  description : Option String
deriving DecidableEq

/-- `GET /portfolios`. -/
def portfolioListRequest : HttpRequest := ⟨HttpMethod.GET, "/portfolios"⟩

/-- `POST /portfolios` (portfolio creation). -/
def portfolioCreateRequest : HttpRequest := ⟨HttpMethod.POST, "/portfolios"⟩

/-- `GET /portfolios/:id`. -/
def portfolioDetailRequest (id : Nat) : HttpRequest :=
  ⟨HttpMethod.GET, "/portfolios/" ++ toString id⟩

/-- The query function of `usePortfolio` in
`src/web/src/services/portfolioService.ts`.  Server responses are
oracles: `portfoliosResp` is the list returned by `GET /portfolios`
(`none` models a nullish body — the JS guard is
`!portfolios || portfolios.length === 0`), `createResp` the portfolio
returned by `POST /portfolios`, `detailResp id` the detailed view returned
by `GET /portfolios/:id`. -/
def usePortfolioQueryFn {α : Type} (portfoliosResp : Option (List PortfolioRead))
    (createResp : PortfolioRead) (detailResp : Nat → α) : List Event × α :=
  match portfoliosResp with
  | none =>
    ([Event.http portfolioListRequest, Event.http portfolioCreateRequest,
      Event.http (portfolioDetailRequest createResp.id)], detailResp createResp.id)
  | some [] =>
    ([Event.http portfolioListRequest, Event.http portfolioCreateRequest,
      Event.http (portfolioDetailRequest createResp.id)], detailResp createResp.id)
  | some (p :: _) =>
    ([Event.http portfolioListRequest, Event.http (portfolioDetailRequest p.id)],
      detailResp p.id)

/-- Claim C3: when the portfolio list read returns no portfolios (nullish
or empty), `usePortfolio` creates a portfolio (a POST appears in the
trace) and returns the detailed view of the created portfolio's id; when
at least one portfolio exists it returns the detailed view of the first
one and issues no POST (every request is a GET). -/
theorem usePortfolio_creates_iff_empty {α : Type}
    (portfoliosResp : Option (List PortfolioRead))
    (createResp : PortfolioRead) (detailResp : Nat → α) :
    ((portfoliosResp = none ∨ portfoliosResp = some []) →
      (usePortfolioQueryFn portfoliosResp createResp detailResp).2 =
        detailResp createResp.id ∧
      Event.http portfolioCreateRequest ∈
        (usePortfolioQueryFn portfoliosResp createResp detailResp).1) ∧
    (∀ p rest, portfoliosResp = some (p :: rest) →
      (usePortfolioQueryFn portfoliosResp createResp detailResp).2 =
        detailResp p.id ∧
      (∀ req, Event.http req ∈
          (usePortfolioQueryFn portfoliosResp createResp detailResp).1 →
        req.method = HttpMethod.GET)) := by
  constructor
  · rintro (h | h) <;> subst h <;>
      exact ⟨rfl, by simp [usePortfolioQueryFn]⟩
  · rintro p rest h
    subst h
    refine ⟨rfl, ?_⟩
    intro req hreq
    simp only [usePortfolioQueryFn, List.mem_cons, List.mem_singleton,
      List.not_mem_nil, or_false] at hreq
    rcases hreq with h | h <;>
      (cases h; rfl)

/-- Claim C3 witness: an empty portfolio list leads to the created
portfolio's detail (id 7) with a POST in the trace; a non-empty list leads
to the first portfolio's detail (id 3) with GET-only traffic. -/
theorem usePortfolio_creates_iff_empty_witness :
    ((usePortfolioQueryFn (some []) ⟨7, "My First Portfolio",
        some "My main investment portfolio"⟩ (fun n => n)).2 = 7 ∧
      Event.http portfolioCreateRequest ∈
        (usePortfolioQueryFn (some []) ⟨7, "My First Portfolio",
          some "My main investment portfolio"⟩ (fun n => n)).1) ∧
    ((usePortfolioQueryFn (some [⟨3, "P", none⟩, ⟨4, "Q", none⟩])
        ⟨7, "My First Portfolio", some "My main investment portfolio"⟩
        (fun n => n)).2 = 3 ∧
      (portfolioListRequest).method = HttpMethod.GET) := by
  have h1 := usePortfolio_creates_iff_empty (some [])
    (⟨7, "My First Portfolio", some "My main investment portfolio"⟩ : PortfolioRead)
    (fun n => n)
  have h2 := usePortfolio_creates_iff_empty
    (some [⟨3, "P", none⟩, ⟨4, "Q", none⟩])
    (⟨7, "My First Portfolio", some "My main investment portfolio"⟩ : PortfolioRead)
    (fun n => n)
  obtain ⟨hres, hget⟩ := h2.2 ⟨3, "P", none⟩ [⟨4, "Q", none⟩] rfl
  refine ⟨h1.1 (Or.inr rfl), hres, ?_⟩
  exact hget portfolioListRequest (by simp [usePortfolioQueryFn])

/-- `TransactionRead` from `src/web/src/types/api.ts`. -/
structure TransactionRead where
  id : Nat
  portfolio_id : Nat
  created_at : String
  updated_at : String
  symbol : String
  transaction_type : String
  quantity : Rat
  price : Rat
  transaction_date : String
  is_option : Bool
  option_type : Option String
  strike_price : Option Rat
  expiration_date : Option String
  underlying_symbol : Option String
deriving DecidableEq

/-- The `holdingTransactions` filter of `EditHoldingDialog`: for an option
holding, match on underlying symbol, option type, strike price and
expiration date; for a stock holding, match on the symbol.  `===` on
possibly-undefined fields is `Option` equality (`undefined === undefined`
is true). -/
def holdingTransactions (holding : EnrichedHolding)
    (allTransactions : List TransactionRead) : List TransactionRead :=
  allTransactions.filter (fun transaction =>
    if holding.is_option then
      transaction.underlying_symbol == holding.underlying_symbol &&
      transaction.option_type == holding.option_type &&
      transaction.strike_price == holding.strike_price &&
      transaction.expiration_date == holding.expiration_date
    else
      transaction.symbol == holding.symbol)

/-- Modelled from the claim's wording of "their position keys match": for
option holdings the transaction's (underlying_symbol, option_type,
strike_price, expiration_date) tuple equals the holding's tuple; for
equity holdings the transaction's symbol equals the holding's symbol. -/
def positionKeyMatches (transaction : TransactionRead)
    (holding : EnrichedHolding) : Prop :=
  if holding.is_option then
    transaction.underlying_symbol = holding.underlying_symbol ∧
    transaction.option_type = holding.option_type ∧
    transaction.strike_price = holding.strike_price ∧
    transaction.expiration_date = holding.expiration_date
  else
    transaction.symbol = holding.symbol

/-- Claim C4: a transaction is grouped under a holding by
`EditHoldingDialog` exactly when it belongs to the transaction list and
their position keys match in the claim's sense. -/
theorem holdingTransactions_iff_position_key (holding : EnrichedHolding)
    (allTransactions : List TransactionRead) (t : TransactionRead) :
    t ∈ holdingTransactions holding allTransactions ↔
      t ∈ allTransactions ∧ positionKeyMatches t holding := by
  unfold holdingTransactions positionKeyMatches
  rw [List.mem_filter]
  cases hi : holding.is_option <;> simp [hi, and_assoc]

/-- Claim C4 witness: an AAPL 150 CALL transaction is grouped under the
matching option holding, and an MSFT equity transaction is not. -/
theorem holdingTransactions_iff_position_key_witness :
    (⟨1, 1, "", "", "AAPL", "BUY", 1, 5, "2024-01-02", true, some "CALL",
        some 150, some "2024-06-21", some "AAPL"⟩ : TransactionRead) ∈
      holdingTransactions
        ⟨"AAPL240621C00150000", 1, 5, 5, none, none, none, none, none, none,
          true, some "CALL", some 150, some "2024-06-21", some "AAPL"⟩
        [⟨1, 1, "", "", "AAPL", "BUY", 1, 5, "2024-01-02", true, some "CALL",
          some 150, some "2024-06-21", some "AAPL"⟩,
         ⟨2, 1, "", "", "MSFT", "BUY", 1, 5, "2024-01-02", false, none,
          none, none, none⟩] := by
  refine (holdingTransactions_iff_position_key _ _ _).mpr ⟨by simp, ?_⟩
  unfold positionKeyMatches
  exact if_pos rfl ▸ ⟨rfl, rfl, rfl, rfl⟩

/-- `LineData` of lightweight-charts: a `{time, value}` point. -/
structure LineData where
  time : Nat
  value : Rat
deriving DecidableEq

/-- `ChartDataPoint` from `LightweightStockChart`: OHLCV plus optional
precomputed indicator fields (absent for short-history bars).  `open` is a
reserved word in Lean, hence `open_price`. -/
structure ChartDataPoint where
  time : Nat
  open_price : Rat
  high : Rat
  low : Rat
  close : Rat
  volume : Rat
  sma_20 : Option Rat
  sma_50 : Option Rat
  sma_100 : Option Rat
  sma_150 : Option Rat
  sma_200 : Option Rat
  rsi_14 : Option Rat
deriving DecidableEq

/-- Dynamic field access `d[key]` for the indicator keys the chart passes
to `toLine` (`config.key` values and the literal `'rsi_14'`). -/
def indicatorField (d : ChartDataPoint) (key : String) : Option Rat :=
  if key = "sma_20" then d.sma_20
  else if key = "sma_50" then d.sma_50
  else if key = "sma_100" then d.sma_100
  else if key = "sma_150" then d.sma_150
  else if key = "sma_200" then d.sma_200
  else if key = "rsi_14" then d.rsi_14
  else none

/-- `toLine` from `LightweightStockChart`: `{time, value}` when the field
value is a number (`some`), `null` (`none`) otherwise. -/
def toLine (d : ChartDataPoint) (key : String) : Option LineData :=
  match indicatorField d key with
  | some v => some ⟨d.time, v⟩
  | none => none

/-- `data.map(d => toLine(d, key)).filter(Boolean)` — the rendered series:
the nulls are dropped and the remaining values unwrapped. -/
def lineSeries (data : List ChartDataPoint) (key : String) : List LineData :=
  (data.map (fun d => toLine d key)).filterMap id

/-- Claim C7: for every chart data point and indicator key, `toLine`
returns `{time, value}` when the field holds a number and null otherwise,
and the rendered series contains exactly the non-null results — points
with absent indicator fields are omitted rather than failing. -/
theorem toLine_null_filtered (data : List ChartDataPoint) (key : String) :
    (∀ d v, indicatorField d key = some v → toLine d key = some ⟨d.time, v⟩) ∧
    (∀ d : ChartDataPoint, indicatorField d key = none → toLine d key = none) ∧
    (∀ x, x ∈ lineSeries data key ↔ ∃ d, d ∈ data ∧ toLine d key = some x) := by
  refine ⟨?_, ?_, ?_⟩
  · intro d v h
    simp [toLine, h]
  · intro d h
    simp [toLine, h]
  · intro x
    simp [lineSeries, List.filterMap_map, List.mem_filterMap, Function.comp]

/-- Claim C7 witness: of two bars sharing key `sma_20`, the one carrying
the value 10 maps to `{time 1, value 10}` and appears in the series, while
the bar with an absent field maps to null; the rendered series is exactly
the singleton. -/
theorem toLine_null_filtered_witness :
    toLine ⟨1, 1, 1, 1, 1, 1, some 10, none, none, none, none, none⟩
      "sma_20" = some ⟨1, 10⟩ ∧
    toLine ⟨2, 1, 1, 1, 1, 1, none, none, none, none, none, none⟩
      "sma_20" = none ∧
    ((⟨1, 10⟩ : LineData) ∈ lineSeries
      [⟨1, 1, 1, 1, 1, 1, some 10, none, none, none, none, none⟩,
       ⟨2, 1, 1, 1, 1, 1, none, none, none, none, none, none⟩] "sma_20") := by
  have h := toLine_null_filtered
    [⟨1, 1, 1, 1, 1, 1, some 10, none, none, none, none, none⟩,
     ⟨2, 1, 1, 1, 1, 1, none, none, none, none, none, none⟩] "sma_20"
  refine ⟨h.1 ⟨1, 1, 1, 1, 1, 1, some 10, none, none, none, none, none⟩ 10 rfl,
    h.2.1 ⟨2, 1, 1, 1, 1, 1, none, none, none, none, none, none⟩ rfl, ?_⟩
  exact (h.2.2 ⟨1, 10⟩).mpr
    ⟨⟨1, 1, 1, 1, 1, 1, some 10, none, none, none, none, none⟩, by simp, rfl⟩

/-- The query parameters sent with `POST /market-data/:symbol` by
`useEnrichedMarketData` in `src/web/src/hooks/useMarketData.ts`. -/
structure EnrichRequestParams where
  interval : Option String
  period : Option String
deriving DecidableEq

/-- Request construction of `useEnrichedMarketData`: interval is passed
through (`interval ?? undefined`), period is
`period === 'max' || period === '10y' ? period : '5y'`. -/
def enrichRequest (symbol : String) (period interval : Option String) :
    HttpRequest × EnrichRequestParams :=
  (⟨HttpMethod.POST, "/market-data/" ++ symbol⟩,
   ⟨interval,
    if period = some "max" ∨ period = some "10y" then period else some "5y"⟩)

/-- Claim C10: every requested period other than exactly "max" / "10y"
(including a null period) is sent as "5y" in the market-data enrichment
request, while "max" and "10y" pass through unchanged. -/
theorem useEnrichedMarketData_period_param (symbol : String)
    (period interval : Option String) :
    (period ≠ some "max" → period ≠ some "10y" →
      (enrichRequest symbol period interval).2.period = some "5y") ∧
    ((period = some "max" ∨ period = some "10y") →
      (enrichRequest symbol period interval).2.period = period) ∧
    (enrichRequest symbol none interval).2.period = some "5y" := by
  refine ⟨?_, ?_, rfl⟩
  · intro h1 h2
    simp [enrichRequest, h1, h2]
  · intro h
    simp [enrichRequest, h]

/-- Claim C10 witness: period "1y" is rewritten to "5y", a null period is
sent as "5y", and "max" passes through. -/
theorem useEnrichedMarketData_period_param_witness :
    (enrichRequest "AAPL" (some "1y") (some "1d")).2.period = some "5y" ∧
    (enrichRequest "AAPL" none none).2.period = some "5y" ∧
    (enrichRequest "AAPL" (some "max") none).2.period = some "max" := by
  have h1 := useEnrichedMarketData_period_param "AAPL" (some "1y") (some "1d")
  have h2 := useEnrichedMarketData_period_param "AAPL" (some "max") none
  exact ⟨h1.1 (by decide) (by decide), rfl, h2.2.1 (Or.inl rfl)⟩
